import Mathlib

/-!
Verification development for the outreach_bot repository.

Shallow embedding of the content-acquisition and quality-gated generation
pipeline: the data model (`Article`, `ScrapedContext`), the context analyzer
(`assess_quality`, `build_summary`, `scrape_context`, `analyzer_get_context`),
the SQLite cache (`sqlite_get_context`, `sqlite_set_context`, serialization
round trip), the evaluator scoring (`evaluate`), the HTTP fetcher retry
classification (`fetch`), the generation orchestrator retry loop
(`generate_email_run`), and the CLI resume logic (`run_async`).

Opaque collaborators (HTTP transport, the language-model calls, HTML
extraction) are modeled as oracle function parameters; everything else is
translated statement by statement from the Python source.
-/

namespace OutreachBot

/-- Python string slicing `s[:n]`, counting unicode code points. -/
def pyTake (s : String) (n : Nat) : String := (s.toList.take n).asString

/-- Python `str.lower()` (modeled per-character). -/
def pyLower (s : String) : String := (s.toList.map Char.toLower).asString

/-- `ContextQuality` enum from models/context.py. -/
inductive ContextQuality
  | GOOD
  | LOW_QUALITY
  | ERROR
deriving DecidableEq

/-- The `.value` of each enum member (models/context.py). -/
def ContextQuality.value : ContextQuality → String
  | .GOOD => "good"
  | .LOW_QUALITY => "low_quality"
  | .ERROR => "error"

/-- `ContextQuality(value)` enum lookup; raises (here: `none`) on unknown strings. -/
def ContextQuality.ofValue : String → Option ContextQuality
  | "good" => some .GOOD
  | "low_quality" => some .LOW_QUALITY
  | "error" => some .ERROR
  | _ => none

/-- `Article` dataclass from models/context.py.  `word_count` is a
nonnegative integer. -/
structure Article where
  title : String
  url : String
  content : String
  word_count : Nat
deriving DecidableEq

/-- `ScrapedContext` dataclass from models/context.py.  `scraped_at` models the
`datetime` timestamp as an integer instant (isoformat serialization is
faithful, so the model treats the stored form and the value as equal). -/
structure ScrapedContext where
  domain : String
  quality : ContextQuality
  blog_url : Option String
  articles : List Article
  summary : String
  error_message : Option String
  scraped_at : Int
deriving DecidableEq

/-- `ScrapedContext.has_usable_content` property (models/context.py):
quality is GOOD and `len(summary) > 50`. -/
def ScrapedContext.has_usable_content (c : ScrapedContext) : Bool :=
  decide (c.quality = ContextQuality.GOOD) && decide (50 < c.summary.length)

/-- `ContextAnalyzer._assess_quality` (context_analyzer.py lines 94-110):
GOOD as soon as one article has `word_count >= min_words`, else LOW_QUALITY. -/
def assess_quality (min_words : Nat) : List Article → ContextQuality
  | [] => ContextQuality.LOW_QUALITY
  | a :: rest =>
      if min_words ≤ a.word_count then ContextQuality.GOOD
      else assess_quality min_words rest

/-- `ContextAnalyzer._build_summary` (context_analyzer.py lines 112-131):
per-article "Title: ...\n" plus first 500 characters of content, joined by
"\n\n---\n\n", then truncated to `max_chars` with a trailing "..." appended
when the concatenation is longer than `max_chars`. -/
def build_summary (max_chars : Nat) (articles : List Article) : String :=
  let parts := articles.map (fun a => "Title: " ++ a.title ++ "\n" ++ pyTake a.content 500)
  let summary := String.intercalate "\n\n---\n\n" parts
  if max_chars < summary.length then pyTake summary max_chars ++ "..." else summary

/-- The un-truncated concatenation built inside `build_summary`. -/
def summary_concat (articles : List Article) : String :=
  String.intercalate "\n\n---\n\n"
    (articles.map (fun a => "Title: " ++ a.title ++ "\n" ++ pyTake a.content 500))

/-- `ContextAnalyzer._scrape_context` (context_analyzer.py lines 48-92).
The blog finder is opaque (network + model call), so its two results are
oracle parameters: `find_blog` is the discovered hub URL and
`scrape_articles` maps a hub URL and the `max_articles` bound to the list of
extracted articles.  `now` is the construction timestamp of the returned
context. -/
def scrape_context (min_words max_chars : Nat)
    (find_blog : Option String)
    (scrape_articles : String → Nat → List Article)
    (domain : String) (now : Int) : ScrapedContext :=
  match find_blog with
  | none =>
      { domain := domain
        quality := ContextQuality.LOW_QUALITY
        blog_url := none
        articles := []
        summary := ""
        error_message := some "No blog or content section found"
        scraped_at := now }
  | some blog_url =>
      if scrape_articles blog_url 3 = [] then
        { domain := domain
          quality := ContextQuality.LOW_QUALITY
          blog_url := some blog_url
          articles := []
          summary := ""
          error_message := some "Blog found but no articles could be extracted"
          scraped_at := now }
      else
        { domain := domain
          quality := assess_quality min_words (scrape_articles blog_url 3)
          blog_url := some blog_url
          articles := scrape_articles blog_url 3
          summary := build_summary max_chars (scrape_articles blog_url 3)
          error_message := none
          scraped_at := now }

/-- Default value of `Settings.max_article_content_chars` (config.py). -/
def max_article_content_chars_default : Nat := 2000

/-- Default value of `Settings.min_article_words` (config.py). -/
def min_article_words_default : Nat := 100

lemma assess_quality_good_iff (min_words : Nat) (l : List Article) :
    assess_quality min_words l = ContextQuality.GOOD ↔
      ∃ a ∈ l, min_words ≤ a.word_count := by
  induction l with
  | nil => simp [assess_quality]
  | cons a rest ih =>
      by_cases h : min_words ≤ a.word_count
      · simp [assess_quality, h]
      · simp [assess_quality, h, ih]

lemma assess_quality_good_or_low (min_words : Nat) (l : List Article) :
    assess_quality min_words l = ContextQuality.GOOD ∨
      assess_quality min_words l = ContextQuality.LOW_QUALITY := by
  induction l with
  | nil => simp [assess_quality]
  | cons a rest ih =>
      by_cases h : min_words ≤ a.word_count
      · simp [assess_quality, h]
      · simpa [assess_quality, h] using ih

/-- C3: a context produced by the analyzer on a cache miss has quality GOOD
iff some article in its article list meets the configured minimum word count;
otherwise (including the no-blog and no-articles failure paths, where the
article list is empty) the quality is LOW_QUALITY. -/
theorem scrape_context_quality_iff (min_words max_chars : Nat)
    (fb : Option String) (sa : String → Nat → List Article)
    (domain : String) (now : Int) :
    ((scrape_context min_words max_chars fb sa domain now).quality = ContextQuality.GOOD ↔
      ∃ a ∈ (scrape_context min_words max_chars fb sa domain now).articles,
        min_words ≤ a.word_count)
    ∧ ((scrape_context min_words max_chars fb sa domain now).quality = ContextQuality.GOOD ∨
        (scrape_context min_words max_chars fb sa domain now).quality = ContextQuality.LOW_QUALITY) := by
  cases fb with
  | none => simp [scrape_context]
  | some url =>
      by_cases h : sa url 3 = []
      · simp [scrape_context, h]
      · simp only [scrape_context, h, if_neg]
        exact ⟨assess_quality_good_iff min_words (sa url 3),
               assess_quality_good_or_low min_words (sa url 3)⟩

lemma str_length_append (a b : String) : (a ++ b).length = a.length + b.length :=
  List.length_append a.data b.data

lemma pyTake_length (s : String) (n : Nat) :
    (pyTake s n).length = min n s.length := by
  simp [pyTake]

lemma build_summary_eq_of_lt (max_chars : Nat) (articles : List Article)
    (h : max_chars < (summary_concat articles).length) :
    build_summary max_chars articles =
      pyTake (summary_concat articles) max_chars ++ "..." := by
  simp only [build_summary, summary_concat] at *
  rw [if_pos h]

lemma build_summary_eq_of_le (max_chars : Nat) (articles : List Article)
    (h : ¬ max_chars < (summary_concat articles).length) :
    build_summary max_chars articles = summary_concat articles := by
  simp only [build_summary, summary_concat] at *
  rw [if_neg h]

/-- C8 (amended): the summary built by the analyzer never exceeds the
configured character budget PLUS the 3-character ellipsis marker; when the
per-article concatenation is longer than the budget, the summary is exactly
the first `max_chars` characters followed by "..." and has length exactly
`max_chars + 3`; otherwise it is the concatenation itself, of length at most
`max_chars`. -/
theorem build_summary_length_le (max_chars : Nat) (articles : List Article) :
    (build_summary max_chars articles).length ≤ max_chars + 3
    ∧ (max_chars < (summary_concat articles).length →
        build_summary max_chars articles =
          pyTake (summary_concat articles) max_chars ++ "..."
        ∧ (build_summary max_chars articles).length = max_chars + 3) := by
  by_cases h : max_chars < (summary_concat articles).length
  · have he := build_summary_eq_of_lt max_chars articles h
    have hlen : (build_summary max_chars articles).length = max_chars + 3 := by
      rw [he, String.length_append, pyTake_length]
      have : min max_chars (summary_concat articles).length = max_chars :=
        Nat.min_eq_left (Nat.le_of_lt h)
      rw [this]
      rfl
    exact ⟨le_of_eq hlen, fun _ => ⟨he, hlen⟩⟩
  · have he := build_summary_eq_of_le max_chars articles h
    constructor
    · rw [he]
      omega
    · intro hc
      exact absurd hc h

/-- C8 witness: the amended bound evaluated on a concrete truncating input
(budget 5, one short article). -/
theorem build_summary_length_le_witness :
    (5 < (summary_concat [⟨"T", "u", "c", 1⟩]).length →
        build_summary 5 [⟨"T", "u", "c", 1⟩] =
          pyTake (summary_concat [⟨"T", "u", "c", 1⟩]) 5 ++ "..."
        ∧ (build_summary 5 [⟨"T", "u", "c", 1⟩]).length = 5 + 3) := by
  exact (build_summary_length_le 5 [⟨"T", "u", "c", 1⟩]).2

/-- C8 counterexample: with character budget 2000 (the config default) and a
single article whose title has 2500 characters, the built summary has length
2003, exceeding the budget — refuting the claimed bound
`len(summary) <= max_article_content_chars`. -/
theorem build_summary_exceeds_budget :
    (build_summary max_article_content_chars_default
        [⟨(List.replicate 2500 'a').asString, "u", "", 0⟩]).length = 2003
    ∧ ¬ (build_summary max_article_content_chars_default
        [⟨(List.replicate 2500 'a').asString, "u", "", 0⟩]).length ≤
          max_article_content_chars_default := by
  have htlen : ((List.replicate 2500 'a').asString).length = 2500 := by
    rw [List.length_asString, List.length_replicate]
  have h1 : summary_concat [⟨(List.replicate 2500 'a').asString, "u", "", 0⟩] =
      (("Title: " ++ (List.replicate 2500 'a').asString) ++ "\n") ++ pyTake "" 500 := rfl
  have hconc : (summary_concat [⟨(List.replicate 2500 'a').asString, "u", "", 0⟩]).length = 2508 := by
    rw [h1, str_length_append, str_length_append, str_length_append, htlen, pyTake_length]
    rfl
  have h : max_article_content_chars_default <
      (summary_concat [⟨(List.replicate 2500 'a').asString, "u", "", 0⟩]).length := by
    rw [hconc]; norm_num [max_article_content_chars_default]
  have hb := (build_summary_length_le max_article_content_chars_default
      [⟨(List.replicate 2500 'a').asString, "u", "", 0⟩]).2 h
  refine ⟨?_, ?_⟩
  · rw [hb.2]
    norm_num [max_article_content_chars_default]
  · rw [hb.2]
    norm_num [max_article_content_chars_default]

/-- JSON image of an `Article` as produced by `Article.to_dict`
(models/context.py).  `to_dict` always emits every key, so the dict is
modeled as a full record. -/
structure ArticleDict where
  title : String
  url : String
  content : String
  word_count : Nat
deriving DecidableEq

/-- `Article.to_dict` (models/context.py). -/
def Article.to_dict (a : Article) : ArticleDict :=
  ⟨a.title, a.url, a.content, a.word_count⟩

/-- `Article.from_dict` (models/context.py); on a `to_dict` image every key is
present, so the `.get` defaults never fire. -/
def Article.from_dict (d : ArticleDict) : Article :=
  ⟨d.title, d.url, d.content, d.word_count⟩

/-- JSON image of a `ScrapedContext` as produced by
`ScrapedContext.to_dict` (models/context.py lines 63-74); `scraped_at` is
serialized by `isoformat`, an injective encoding modeled as the identity on
the integer instant. -/
structure ContextDict where
  domain : String
  quality : String
  blog_url : Option String
  articles : List ArticleDict
  summary : String
  error_message : Option String
  scraped_at : Int
deriving DecidableEq

/-- `ScrapedContext.to_dict` (models/context.py lines 63-74). -/
def ScrapedContext.to_dict (c : ScrapedContext) : ContextDict :=
  ⟨c.domain, c.quality.value, c.blog_url, c.articles.map Article.to_dict,
   c.summary, c.error_message, c.scraped_at⟩

/-- `ScrapedContext.from_dict` (models/context.py lines 76-86);
`ContextQuality(data["quality"])` raises on an unknown enum value, modeled as
`none`. -/
def ScrapedContext.from_dict (d : ContextDict) : Option ScrapedContext :=
  match ContextQuality.ofValue d.quality with
  | none => none
  | some q =>
      some ⟨d.domain, q, d.blog_url, d.articles.map Article.from_dict,
            d.summary, d.error_message, d.scraped_at⟩

/-- The `scraped_contexts` table: lowercased-domain primary key mapping to
the JSON payload column and the `scraped_at` column. -/
def ContextStore := String → Option (ContextDict × Int)

/-- `SQLiteCache.set_context` (sqlite_cache.py lines 101-114): INSERT OR
REPLACE keyed by `context.domain.lower()`, storing the JSON of `to_dict` and
`context.scraped_at`. -/
def sqlite_set_context (store : ContextStore) (c : ScrapedContext) : ContextStore :=
  fun k => if k = pyLower c.domain then some (c.to_dict, c.scraped_at) else store k

/-- `SQLiteCache.get_context` (sqlite_cache.py lines 69-99): looks up
`domain.lower()`; a row older than the TTL is deleted and reported absent;
otherwise the JSON is decoded with `from_dict`.  `now` models
`datetime.utcnow()` and `ttl` the `timedelta(days=ttl_days)` bound in the
same time unit.  (A hypothetical undecodable row is modeled as an absent
result; rows written by `sqlite_set_context` always decode.) -/
def sqlite_get_context (store : ContextStore) (now ttl : Int) (domain : String) :
    Option ScrapedContext × ContextStore :=
  match store (pyLower domain) with
  | none => (none, store)
  | some (d, t) =>
      if ttl < now - t then
        (none, fun k => if k = pyLower domain then none else store k)
      else
        (ScrapedContext.from_dict d, store)

/-- Result of one `ContextAnalyzer.get_context` call: the returned context,
the cache store afterwards, and how many network discovery sequences
(`_scrape_context` runs) were performed. -/
structure GetContextResult where
  context : ScrapedContext
  store : ContextStore
  discoveries : Nat

/-- `ContextAnalyzer.get_context` (context_analyzer.py lines 24-46):
cache-first; on a miss it scrapes (one discovery sequence) and writes the
result — whatever its quality — back to the cache. -/
def analyzer_get_context (min_words max_chars : Nat)
    (find_blog : Option String) (scrape_articles : String → Nat → List Article)
    (store : ContextStore) (now ttl : Int) (domain : String) : GetContextResult :=
  match sqlite_get_context store now ttl domain with
  | (some cached, store1) => ⟨cached, store1, 0⟩
  | (none, store1) =>
      let context := scrape_context min_words max_chars find_blog scrape_articles domain now
      ⟨context, sqlite_set_context store1 context, 1⟩

lemma quality_value_roundtrip (q : ContextQuality) :
    ContextQuality.ofValue q.value = some q := by
  cases q <;> rfl

lemma article_dict_roundtrip (a : Article) :
    Article.from_dict a.to_dict = a := rfl

lemma context_from_to_dict (c : ScrapedContext) :
    ScrapedContext.from_dict c.to_dict = some c := by
  have harts : (c.articles.map Article.to_dict).map Article.from_dict = c.articles := by
    induction c.articles with
    | nil => rfl
    | cons a t ih =>
        simp only [List.map_cons]
        rw [ih]
        rfl
  simp only [ScrapedContext.from_dict, ScrapedContext.to_dict, quality_value_roundtrip, harts]

/-- C10: serialization round trip and case-insensitive cache keying —
`from_dict (to_dict c) = some c` for every context, and after
`set_context c` a `get_context d` for any `d` with
`d.lower() == c.domain.lower()`, at a time when the record is unexpired,
returns exactly `c` and leaves the store unchanged. -/
theorem sqlite_cache_roundtrip (store : ContextStore) (c : ScrapedContext)
    (d : String) (now ttl : Int)
    (hkey : pyLower d = pyLower c.domain)
    (hfresh : ¬ ttl < now - c.scraped_at) :
    ScrapedContext.from_dict c.to_dict = some c
    ∧ sqlite_get_context (sqlite_set_context store c) now ttl d =
        (some c, sqlite_set_context store c) := by
  refine ⟨context_from_to_dict c, ?_⟩
  unfold sqlite_get_context
  have hhit : sqlite_set_context store c (pyLower d) = some (c.to_dict, c.scraped_at) := by
    unfold sqlite_set_context
    rw [if_pos hkey]
  rw [hhit]
  simp only [if_neg hfresh]
  rw [context_from_to_dict]

/-- C10 witness: the round trip evaluated at a concrete context and a
differently-cased domain. -/
theorem sqlite_cache_roundtrip_witness :
    ScrapedContext.from_dict
        (ScrapedContext.to_dict
          ⟨"Example.com", ContextQuality.GOOD, some "https://example.com/blog",
           [⟨"T", "u", "c", 120⟩], "sum", none, 5⟩) =
      some ⟨"Example.com", ContextQuality.GOOD, some "https://example.com/blog",
            [⟨"T", "u", "c", 120⟩], "sum", none, 5⟩
    ∧ sqlite_get_context
        (sqlite_set_context (fun _ => none)
          ⟨"Example.com", ContextQuality.GOOD, some "https://example.com/blog",
           [⟨"T", "u", "c", 120⟩], "sum", none, 5⟩) 6 7 "EXAMPLE.COM" =
        (some ⟨"Example.com", ContextQuality.GOOD, some "https://example.com/blog",
               [⟨"T", "u", "c", 120⟩], "sum", none, 5⟩,
         sqlite_set_context (fun _ => none)
          ⟨"Example.com", ContextQuality.GOOD, some "https://example.com/blog",
           [⟨"T", "u", "c", 120⟩], "sum", none, 5⟩) :=
  sqlite_cache_roundtrip (fun _ => none)
    ⟨"Example.com", ContextQuality.GOOD, some "https://example.com/blog",
     [⟨"T", "u", "c", 120⟩], "sum", none, 5⟩
    "EXAMPLE.COM" 6 7 (by rfl) (by norm_num)

lemma scrape_context_domain (min_words max_chars : Nat) (fb : Option String)
    (sa : String → Nat → List Article) (domain : String) (now : Int) :
    (scrape_context min_words max_chars fb sa domain now).domain = domain := by
  cases fb with
  | none => rfl
  | some url =>
      unfold scrape_context
      dsimp only
      by_cases h : sa url 3 = []
      · rw [if_pos h]
      · rw [if_neg h]

lemma scrape_context_scraped_at (min_words max_chars : Nat) (fb : Option String)
    (sa : String → Nat → List Article) (domain : String) (now : Int) :
    (scrape_context min_words max_chars fb sa domain now).scraped_at = now := by
  cases fb with
  | none => rfl
  | some url =>
      unfold scrape_context
      dsimp only
      by_cases h : sa url 3 = []
      · rw [if_pos h]
      · rw [if_neg h]

/-- C5: with no record for the domain, the first `get_context` call performs
exactly one discovery sequence and caches its outcome (whatever it is); a
second call while that record is within the TTL performs zero discoveries
and returns the cached context, leaving the store unchanged.  Additionally,
a record whose age exceeds the TTL is deleted on read and treated as
absent. -/
theorem analyzer_get_context_cached (min_words max_chars : Nat)
    (fb : Option String) (sa : String → Nat → List Article)
    (store : ContextStore) (t0 t1 ttl : Int) (domain : String)
    (habs : store (pyLower domain) = none)
    (hfresh : ¬ ttl < t1 - t0) :
    (analyzer_get_context min_words max_chars fb sa store t0 ttl domain).discoveries = 1
    ∧ (analyzer_get_context min_words max_chars fb sa store t0 ttl domain).context =
        scrape_context min_words max_chars fb sa domain t0
    ∧ (analyzer_get_context min_words max_chars fb sa
        (analyzer_get_context min_words max_chars fb sa store t0 ttl domain).store
        t1 ttl domain).discoveries = 0
    ∧ (analyzer_get_context min_words max_chars fb sa
        (analyzer_get_context min_words max_chars fb sa store t0 ttl domain).store
        t1 ttl domain).context =
        (analyzer_get_context min_words max_chars fb sa store t0 ttl domain).context
    ∧ (∀ (st : ContextStore) (dd : ContextDict) (t now : Int),
        st (pyLower domain) = some (dd, t) → ttl < now - t →
        sqlite_get_context st now ttl domain =
          (none, fun k => if k = pyLower domain then none else st k)) := by
  have hmiss : sqlite_get_context store t0 ttl domain = (none, store) := by
    unfold sqlite_get_context
    rw [habs]
  have hfirst : analyzer_get_context min_words max_chars fb sa store t0 ttl domain =
      ⟨scrape_context min_words max_chars fb sa domain t0,
       sqlite_set_context store (scrape_context min_words max_chars fb sa domain t0), 1⟩ := by
    unfold analyzer_get_context
    rw [hmiss]
  have hkey : pyLower domain =
      pyLower (scrape_context min_words max_chars fb sa domain t0).domain := by
    rw [scrape_context_domain]
  have hfresh0 : ¬ ttl < t1 - (scrape_context min_words max_chars fb sa domain t0).scraped_at := by
    rw [scrape_context_scraped_at]
    exact hfresh
  have hhit := (sqlite_cache_roundtrip store
      (scrape_context min_words max_chars fb sa domain t0) domain t1 ttl hkey hfresh0).2
  have hsecond : analyzer_get_context min_words max_chars fb sa
      (sqlite_set_context store (scrape_context min_words max_chars fb sa domain t0))
      t1 ttl domain =
      ⟨scrape_context min_words max_chars fb sa domain t0,
       sqlite_set_context store (scrape_context min_words max_chars fb sa domain t0), 0⟩ := by
    unfold analyzer_get_context
    rw [hhit]
  refine ⟨?_, ?_, ?_, ?_, ?_⟩
  · rw [hfirst]
  · rw [hfirst]
  · rw [hfirst]
    dsimp only
    rw [hsecond]
  · rw [hfirst]
    dsimp only
    rw [hsecond]
  · intro st dd t now hrow hexp
    unfold sqlite_get_context
    rw [hrow]
    dsimp only
    rw [if_pos hexp]

/-- C5 witness: the cache-hit behavior evaluated at a concrete empty store,
with a concrete expired record exercising the lazy-deletion clause. -/
theorem analyzer_get_context_cached_witness :
    (analyzer_get_context 100 2000 none (fun _ _ => []) (fun _ => none) 0 7 "ex.com").discoveries = 1
    ∧ (analyzer_get_context 100 2000 none (fun _ _ => [])
        (analyzer_get_context 100 2000 none (fun _ _ => []) (fun _ => none) 0 7 "ex.com").store
        5 7 "ex.com").discoveries = 0
    ∧ sqlite_get_context
        (fun k => if k = pyLower "ex.com" then
            some (⟨"ex.com", "good", none, [], "", none, 0⟩, 0) else none)
        10 7 "ex.com" =
        (none, fun k => if k = pyLower "ex.com" then none
          else (fun k2 => if k2 = pyLower "ex.com" then
            some ((⟨"ex.com", "good", none, [], "", none, 0⟩ : ContextDict), 0) else none) k) := by
  have h := analyzer_get_context_cached 100 2000 none (fun _ _ => [])
    (fun _ => none) 0 5 7 "ex.com" rfl (by norm_num)
  exact ⟨h.1, h.2.2.1,
    h.2.2.2.2 (fun k => if k = pyLower "ex.com" then
        some (⟨"ex.com", "good", none, [], "", none, 0⟩, 0) else none)
      ⟨"ex.com", "good", none, [], "", none, 0⟩ 0 10 (by rfl) (by norm_num)⟩

/-- `EvaluationResult` dataclass (email_evaluator.py lines 14-23).
`quality_score` is integer-valued in the source arithmetic (declared float,
computed with int operations), modeled as `Int`. -/
structure EvaluationResult where
  is_acceptable : Bool
  quality_score : Int
  issues : List String
  suggestions : List String
  ai_indicators : List String
  strunk_white_violations : List String
deriving DecidableEq

/-- `EvaluationResult.get_feedback_text` (email_evaluator.py lines 25-56). -/
def EvaluationResult.get_feedback_text (r : EvaluationResult) (threshold : Int) : String :=
  let p1 := if r.ai_indicators ≠ [] then
      "AI Writing Issues:" :: r.ai_indicators.map (fun i => "  - " ++ i) else []
  let p2 := if r.strunk_white_violations ≠ [] then
      "\nStyle Violations:" :: r.strunk_white_violations.map (fun i => "  - " ++ i) else []
  let p3 := if r.issues ≠ [] then
      "\nOther Issues:" :: r.issues.map (fun i => "  - " ++ i) else []
  let p4 := if r.suggestions ≠ [] then
      "\nSuggestions:" :: r.suggestions.map (fun i => "  - " ++ i) else []
  let score_line :=
    "\nQuality Score: " ++ toString r.quality_score ++ "/100 (needs " ++ toString threshold ++ "+)"
  String.intercalate "\n" ((((p1 ++ p2) ++ p3) ++ p4) ++ [score_line])

/-- The fixed JSON schema returned by the model-assisted evaluation call
(`_ai_evaluate`, email_evaluator.py lines 280-328). -/
structure AIEvalResult where
  ai_indicators : List String
  style_issues : List String
  suggestions : List String
deriving DecidableEq

/-- Default of the `quality_threshold` parameter of `EmailEvaluator.__init__`
(email_evaluator.py line 123). -/
def quality_threshold_default : Int := 70

/-- `EmailEvaluator.evaluate` (email_evaluator.py lines 137-200).  The six
rule-based pattern checks and the model-assisted check analyze opaque text,
so their finding lists are oracle parameters, named after the source methods
and combined in source order; `ai_result = none` models the failed or absent
model call (treated as no additional findings). -/
def evaluate (quality_threshold : Int)
    (check_ai_phrases check_qualifiers check_passive_voice
     check_vague_language check_length check_repetition : List String)
    (ai_result : Option AIEvalResult) : EvaluationResult :=
  let ai_indicators := check_ai_phrases ++
    (match ai_result with | some r => r.ai_indicators | none => [])
  let strunk_white_violations := (check_qualifiers ++ check_passive_voice) ++
    (match ai_result with | some r => r.style_issues | none => [])
  let issues := (check_vague_language ++ check_length) ++ check_repetition
  let suggestions := match ai_result with | some r => r.suggestions | none => []
  let total_issues :=
    (ai_indicators.length * 2 + strunk_white_violations.length * 1) + issues.length * 1
  let quality_score : Int := max 0 (100 - (total_issues : Int) * 3)
  { is_acceptable := decide (quality_threshold ≤ quality_score)
    quality_score := quality_score
    issues := issues
    suggestions := suggestions
    ai_indicators := ai_indicators
    strunk_white_violations := strunk_white_violations }

/-- C4: the evaluator score is
`max(0, 100 - 3*(2*|ai_indicators| + 1*|style_violations| + 1*|other_issues|))`
over the combined rule-based and model-provided findings, acceptability is
`score >= threshold`, and the threshold defaults to 70. -/
theorem evaluate_score_formula (quality_threshold : Int)
    (c1 c2 c3 c4 c5 c6 : List String) (ai_result : Option AIEvalResult) :
    (evaluate quality_threshold c1 c2 c3 c4 c5 c6 ai_result).quality_score =
      max 0 (100 - 3 *
        (2 * ((evaluate quality_threshold c1 c2 c3 c4 c5 c6 ai_result).ai_indicators.length : Int)
         + 1 * ((evaluate quality_threshold c1 c2 c3 c4 c5 c6 ai_result).strunk_white_violations.length : Int)
         + 1 * ((evaluate quality_threshold c1 c2 c3 c4 c5 c6 ai_result).issues.length : Int)))
    ∧ ((evaluate quality_threshold c1 c2 c3 c4 c5 c6 ai_result).is_acceptable = true ↔
        quality_threshold ≤ (evaluate quality_threshold c1 c2 c3 c4 c5 c6 ai_result).quality_score)
    ∧ quality_threshold_default = 70 := by
  refine ⟨?_, ?_, rfl⟩
  · unfold evaluate
    dsimp only
    push_cast
    ring_nf
  · unfold evaluate
    dsimp only
    constructor
    · intro h
      exact of_decide_eq_true h
    · intro h
      exact decide_eq_true h

/-- `PROMPT_VARIATIONS` keys in definition order (variations.py lines 19-120),
as returned by `get_all_variation_keys` (lines 148-151). -/
def get_all_variation_keys : List String :=
  ["direct_reference", "problem_focused", "compliment_insight", "question_based",
   "shared_interest", "trend_connection", "specific_quote", "future_focused",
   "contrarian", "minimalist"]

/-- The keyword arguments recorded for one `ai_opener.generate_opener` call
made inside `EmailGenerator.generate_email` (email_generator.py lines
77-83). -/
structure OpenerCall where
  variation : String
  feedback : Option String
  previous_opener : Option String
deriving DecidableEq

/-- One entry of the `cached_attempts` ledger (email_generator.py lines
100-107). -/
structure Attempt where
  opener : String
  subject : String
  body : String
  evaluation : EvaluationResult
  score : Int
  attempt_number : Nat
deriving DecidableEq

/-- The fields of `GeneratedEmail` (models/email.py) that
`generate_email` determines (recipient identity fields omitted: they are
copied verbatim from the contact). -/
structure GeneratedEmail where
  subject : String
  body : String
  opener : String
  used_ai_opener : Bool
  prompt_variation : Option String
  evaluation : Option EvaluationResult
deriving DecidableEq

/-- A full `generate_email` run: the produced email, the generate_opener
calls made (in order, with their keyword arguments), and the final
`cached_attempts` ledger. -/
structure GenRun where
  email : GeneratedEmail
  calls : List OpenerCall
  ledger : List Attempt
deriving DecidableEq

/-- Python `max(list, key=...)`: the scan keeps the incumbent on ties and
replaces it only on strict improvement, so the first element attaining the
maximum key is returned. -/
def pyMaxBy (key : α → Int) : α → List α → α
  | best, [] => best
  | best, x :: xs => pyMaxBy key (if key best < key x then x else best) xs

/-- How the retry loop of `generate_email` exits (email_generator.py lines
71-145). -/
inductive LoopOutcome
  | accepted (opener subject body : String) (evaluation : EvaluationResult)
  | best_attempt (a : Attempt)
  | accepted_no_eval (opener subject body : String)
  | failed
deriving DecidableEq

/-- The retry loop of `EmailGenerator.generate_email` (email_generator.py
lines 71-145), one recursive step per `for attempt in range(max_retries+1)`
iteration.  `gen` is the generate_opener collaborator (attempt index and the
recorded keyword arguments to the tagged (opener, error) pair it returns, per
its docstring contract); `asm` is `templates.assemble_email` specialized to
the fixed contact (opener to (subject, body)); `ev` is
`evaluator.evaluate(body, subject)`.  `LoopOutcome.failed` covers the
generation-failure break (line 87); the empty-ledger arm of the exhausted
branch mirrors the `if cached_attempts:` guard (line 129). -/
def genLoop (gen : Nat → OpenerCall → String × Option String)
    (asm : String → String × String)
    (ev : Nat → String → String → EvaluationResult)
    (enable_evaluation : Bool) (max_retries : Nat) (quality_threshold : Int)
    (variation : String) :
    List Nat → Option String → Option String → List Attempt → List OpenerCall →
      LoopOutcome × List OpenerCall × List Attempt
  | [], _, _, ledger, calls => (LoopOutcome.failed, calls, ledger)
  | attempt :: rest, feedback, previous_opener, ledger, calls =>
      let c : OpenerCall := ⟨variation, feedback, previous_opener⟩
      let g := gen attempt c
      if g.1 = "" ∨ g.2 ≠ none then
        (LoopOutcome.failed, calls ++ [c], ledger)
      else
        let sb := asm g.1
        if enable_evaluation then
          let e := ev attempt sb.2 sb.1
          let a : Attempt := ⟨g.1, sb.1, sb.2, e, e.quality_score, attempt + 1⟩
          if e.is_acceptable then
            (LoopOutcome.accepted g.1 sb.1 sb.2 e, calls ++ [c], ledger ++ [a])
          else if attempt < max_retries then
            genLoop gen asm ev enable_evaluation max_retries quality_threshold variation
              rest (some (e.get_feedback_text quality_threshold)) (some g.1)
              (ledger ++ [a]) (calls ++ [c])
          else
            match ledger ++ [a] with
            | [] => (LoopOutcome.failed, calls ++ [c], ledger ++ [a])
            | b :: bs =>
                (LoopOutcome.best_attempt (pyMaxBy (fun x => x.score) b bs),
                 calls ++ [c], ledger ++ [a])
        else
          (LoopOutcome.accepted_no_eval g.1 sb.1 sb.2, calls ++ [c], ledger)

/-- Dataflow model of `EmailGenerator.generate_email` (email_generator.py
lines 36-170): the orchestrator retry loop with the generation, assembly,
evaluation and fallback-opener collaborators as oracles.  The
generate_opener call is modeled by its call-site contract — a tagged
(opener, error) pair computed from the recorded keyword arguments; the
Python keyword-binding defect at that call site is modeled separately by
`generate_email_py` (claim C2).  `fo` is
`templates.get_fallback_opener(contact)`. -/
def generate_email_run (gen : Nat → OpenerCall → String × Option String)
    (asm : String → String × String)
    (ev : Nat → String → String → EvaluationResult)
    (enable_evaluation : Bool) (max_retries : Nat) (quality_threshold : Int)
    (context : ScrapedContext) (prompt_variation : String) (fo : String) : GenRun :=
  if context.quality = ContextQuality.GOOD ∧ context.has_usable_content = true then
    match genLoop gen asm ev enable_evaluation max_retries quality_threshold prompt_variation
        (List.range (max_retries + 1)) none none [] [] with
    | (LoopOutcome.accepted opener subject body e, calls, ledger) =>
        ⟨⟨subject, body, opener, true, some prompt_variation, some e⟩, calls, ledger⟩
    | (LoopOutcome.best_attempt a, calls, ledger) =>
        ⟨⟨a.subject, a.body, a.opener, true, some prompt_variation, some a.evaluation⟩,
         calls, ledger⟩
    | (LoopOutcome.accepted_no_eval opener subject body, calls, ledger) =>
        ⟨⟨subject, body, opener, true, some prompt_variation, none⟩, calls, ledger⟩
    | (LoopOutcome.failed, calls, ledger) =>
        ⟨⟨(asm fo).1, (asm fo).2, fo, false, none, none⟩, calls, ledger⟩
  else
    ⟨⟨(asm fo).1, (asm fo).2, fo, false, none, none⟩, [], []⟩

/-- Parameter names of `AIOpener.generate_opener` (ai_opener.py lines 36-41),
excluding `self`. -/
def generate_opener_params : List String := ["contact", "context", "variation_key"]

/-- Keyword-argument names passed at the `generate_opener` call site inside
`EmailGenerator.generate_email` (email_generator.py lines 77-83), beyond the
positional arguments. -/
def generate_opener_call_kwargs : List String := ["feedback", "previous_opener"]

/-- Python call binding: every keyword argument must name a declared
parameter of the callee, otherwise the interpreter raises `TypeError` in the
caller's frame, before the callee body (and hence before the callee's
try/except) runs. -/
def pyCallBinds (params kwargs : List String) : Bool :=
  kwargs.all (fun k => params.contains k)

/-- Result of a Python call: a value, or a propagating exception. -/
inductive PyResult (α : Type)
  | ok (value : α)
  | exn (message : String)
deriving DecidableEq

/-- `generate_email` with the Python keyword-binding semantics of its
generate_opener call site made explicit: on the AI-generation path the loop
body immediately performs the call at lines 77-83, so when the keyword
arguments do not bind to `AIOpener.generate_opener`'s parameters the
TypeError propagates out of `generate_email`, which has no handler; when
binding succeeds the dataflow model `generate_email_run` describes the
result. -/
def generate_email_py (gen : Nat → OpenerCall → String × Option String)
    (asm : String → String × String)
    (ev : Nat → String → String → EvaluationResult)
    (enable_evaluation : Bool) (max_retries : Nat) (quality_threshold : Int)
    (context : ScrapedContext) (prompt_variation : String) (fo : String) :
    PyResult GenRun :=
  if context.quality = ContextQuality.GOOD ∧ context.has_usable_content = true then
    if pyCallBinds generate_opener_params generate_opener_call_kwargs then
      PyResult.ok (generate_email_run gen asm ev enable_evaluation max_retries
        quality_threshold context prompt_variation fo)
    else
      PyResult.exn "TypeError: generate_opener() got an unexpected keyword argument"
  else
    PyResult.ok (generate_email_run gen asm ev enable_evaluation max_retries
      quality_threshold context prompt_variation fo)

/-- A concrete GOOD context with a usable (60-character) summary. -/
def good_ctx : ScrapedContext :=
  ⟨"ex.com", ContextQuality.GOOD, some "https://ex.com/blog", [],
   (List.replicate 60 's').asString, none, 0⟩

/-- Concrete generation oracle that always succeeds. -/
def gen_ok : Nat → OpenerCall → String × Option String :=
  fun _ _ => ("an opener", none)

/-- Concrete generation oracle that succeeds on attempt indices 0 and 1 and
fails (empty output with an error) on the final attempt index 2. -/
def gen_fail_last : Nat → OpenerCall → String × Option String :=
  fun i _ => if i < 2 then ("an opener", none) else ("", some "Generation error: boom")

/-- Concrete assembly oracle (subject, body) for a fixed contact. -/
def asm0 : String → String × String :=
  fun o => ("subject line", "Hi Jane,\n\n" ++ o)

/-- Concrete evaluation oracle: attempts score 40, 55, 60 and are all
rejected. -/
def ev_reject : Nat → String → String → EvaluationResult :=
  fun i _ _ => ⟨false, ([40, 55, 60].getD i 0 : Int), [], [], [], []⟩

/-- C2 (the code at the failing input): for every GOOD context with usable
summary, the generate_opener call site inside generate_email passes keyword
arguments `feedback` and `previous_opener` that `AIOpener.generate_opener`
does not declare, so the call raises TypeError in generate_email's frame —
outside the callee's try/except — and generate_email, having no handler,
propagates the exception to its caller instead of falling back to the
template. -/
theorem generate_email_propagates_type_error
    (gen : Nat → OpenerCall → String × Option String)
    (asm : String → String × String)
    (ev : Nat → String → String → EvaluationResult)
    (enable_evaluation : Bool) (mr : Nat) (th : Int)
    (ctx : ScrapedContext) (v fo : String)
    (hq : ctx.quality = ContextQuality.GOOD)
    (hu : ctx.has_usable_content = true) :
    pyCallBinds generate_opener_params generate_opener_call_kwargs = false
    ∧ generate_email_py gen asm ev enable_evaluation mr th ctx v fo =
        PyResult.exn "TypeError: generate_opener() got an unexpected keyword argument" := by
  constructor
  · rfl
  · unfold generate_email_py
    rw [if_pos ⟨hq, hu⟩, if_neg (by decide)]

/-- C2 witness: the TypeError propagation at a concrete contact and GOOD
context. -/
theorem generate_email_propagates_type_error_witness :
    generate_email_py gen_ok asm0 ev_reject true 3 70 good_ctx "direct_reference" "fb" =
      PyResult.exn "TypeError: generate_opener() got an unexpected keyword argument" :=
  (generate_email_propagates_type_error gen_ok asm0 ev_reject true 3 70 good_ctx
    "direct_reference" "fb" rfl (by decide)).2

/-- The run behind the C1 counterexample: max_retries = 2 (three attempt
slots), threshold 70; attempts 1 and 2 generate and score 40 and 55 (both
rejected), the third and final generation attempt fails. -/
def cexC1run : GenRun :=
  generate_email_run gen_fail_last asm0 ev_reject true 2 70 good_ctx
    "direct_reference" "fallback opener"

/-- C1 counterexample: in this run the retry budget is fully spent (all
three generate_opener calls were made) and no attempt scored at or above the
threshold, yet the final message is the static template with
used_ai_opener = false even though the ledger is non-empty (it holds the
attempts scoring 40 and 55) — refuting the claim that the best ledger
attempt is then used and that the template appears only on an empty
ledger. -/
theorem best_attempt_claim_cex :
    cexC1run.calls.length = 3
    ∧ cexC1run.ledger.length = 2
    ∧ (∀ a ∈ cexC1run.ledger, a.score < 70)
    ∧ cexC1run.email.used_ai_opener = false
    ∧ cexC1run.email.opener = "fallback opener"
    ∧ cexC1run.email.evaluation = none
    ∧ cexC1run.ledger ≠ [] := by
  decide

/-- The run behind the C6 counterexample: max_retries = 1, both attempts
generate and are rejected, so one retry call happens. -/
def cexC6run : GenRun :=
  generate_email_run gen_ok asm0 ev_reject true 1 70 good_ctx
    "direct_reference" "fallback opener"

/-- The retry-variant selection the claim describes (not present in the
code): the first key of `get_all_variation_keys` not yet tried, reusing the
previous variant only when all have been tried.  Stated from the claim's
words, for comparison with the variant the code actually passes. -/
def claimed_next_variant (used : List String) (previous : String) : String :=
  match get_all_variation_keys.filter (fun k => ! used.contains k) with
  | [] => previous
  | k :: _ => k

/-- C6 counterexample: on the retry (second call) the code passes the very
same variant "direct_reference" it already tried, although unused variants
remain and the claimed selection would pick "problem_focused" — refuting the
claim that each retry uses the next not-yet-tried prompt variant. -/
theorem next_variant_claim_cex :
    cexC6run.calls.length = 2
    ∧ (cexC6run.calls.getD 1 ⟨"", none, none⟩).variation = "direct_reference"
    ∧ claimed_next_variant ["direct_reference"] "direct_reference" = "problem_focused"
    ∧ ("direct_reference" : String) ≠ "problem_focused" := by
  decide

/-- Closed form of the keyword arguments the exhaustion run passes to the
generation collaborator on attempt `i`: no feedback on attempt 0; from
attempt 1 on, the previous attempt's opener and its feedback text. -/
def exCall (gen : Nat → OpenerCall → String × Option String)
    (asm : String → String × String)
    (ev : Nat → String → String → EvaluationResult)
    (th : Int) (v : String) : Nat → OpenerCall
  | 0 => ⟨v, none, none⟩
  | i + 1 =>
      let o := (gen i (exCall gen asm ev th v i)).1
      let sb := asm o
      let e := ev i sb.2 sb.1
      ⟨v, some (e.get_feedback_text th), some o⟩

/-- Closed form of the ledger entry the exhaustion run records for attempt
index `i`. -/
def exAttempt (gen : Nat → OpenerCall → String × Option String)
    (asm : String → String × String)
    (ev : Nat → String → String → EvaluationResult)
    (th : Int) (v : String) (i : Nat) : Attempt :=
  let o := (gen i (exCall gen asm ev th v i)).1
  let sb := asm o
  let e := ev i sb.2 sb.1
  ⟨o, sb.1, sb.2, e, e.quality_score, i + 1⟩

/-- The exhausted-branch selection over a ledger (email_generator.py lines
129-137): Python `max(cached_attempts, key=score)` when non-empty. -/
def bestOut : List Attempt → LoopOutcome
  | [] => LoopOutcome.failed
  | b :: bs => LoopOutcome.best_attempt (pyMaxBy (fun x => x.score) b bs)

lemma exCall_variation (gen : Nat → OpenerCall → String × Option String)
    (asm : String → String × String)
    (ev : Nat → String → String → EvaluationResult)
    (th : Int) (v : String) (i : Nat) :
    (exCall gen asm ev th v i).variation = v := by
  cases i <;> rfl

lemma opener_call_eta (v : String) (c : OpenerCall) (h : c.variation = v) :
    (⟨v, c.feedback, c.previous_opener⟩ : OpenerCall) = c := by
  cases c
  cases h
  rfl

lemma genLoop_closed_form
    (gen : Nat → OpenerCall → String × Option String)
    (asm : String → String × String)
    (ev : Nat → String → String → EvaluationResult)
    (mr : Nat) (th : Int) (v : String)
    (hgen : ∀ i c, (gen i c).1 ≠ "" ∧ (gen i c).2 = none)
    (hev : ∀ i b s, (ev i b s).is_acceptable = false) :
    ∀ n s ledger calls, 0 < n → s + n = mr + 1 →
      genLoop gen asm ev true mr th v (List.range' s n)
          (exCall gen asm ev th v s).feedback (exCall gen asm ev th v s).previous_opener
          ledger calls
        = (bestOut (ledger ++ (List.range' s n).map (exAttempt gen asm ev th v)),
           calls ++ (List.range' s n).map (exCall gen asm ev th v),
           ledger ++ (List.range' s n).map (exAttempt gen asm ev th v)) := by
  intro n
  induction n with
  | zero => omega
  | succ m ih =>
      intro s ledger calls _ hsum
      have hrange : List.range' s (m + 1) = s :: List.range' (s + 1) m :=
        List.range'_succ s m 1
      have hc : (⟨v, (exCall gen asm ev th v s).feedback,
          (exCall gen asm ev th v s).previous_opener⟩ : OpenerCall) =
          exCall gen asm ev th v s :=
        opener_call_eta v _ (exCall_variation gen asm ev th v s)
      rw [hrange]
      unfold genLoop
      dsimp only
      rw [hc]
      rw [if_neg (by
        rintro (h1 | h2)
        · exact (hgen s (exCall gen asm ev th v s)).1 h1
        · exact h2 (hgen s (exCall gen asm ev th v s)).2)]
      rw [if_pos rfl]
      rw [if_neg (by rw [hev]; exact Bool.false_ne_true)]
      have hrec : (⟨(gen s (exCall gen asm ev th v s)).1,
          (asm (gen s (exCall gen asm ev th v s)).1).1,
          (asm (gen s (exCall gen asm ev th v s)).1).2,
          ev s (asm (gen s (exCall gen asm ev th v s)).1).2
            (asm (gen s (exCall gen asm ev th v s)).1).1,
          (ev s (asm (gen s (exCall gen asm ev th v s)).1).2
            (asm (gen s (exCall gen asm ev th v s)).1).1).quality_score,
          s + 1⟩ : Attempt) = exAttempt gen asm ev th v s := rfl
      rw [hrec]
      by_cases hs : s < mr
      · have hm : 0 < m := by omega
        rw [if_pos hs]
        have hfb : some ((ev s (asm (gen s (exCall gen asm ev th v s)).1).2
              (asm (gen s (exCall gen asm ev th v s)).1).1).get_feedback_text th) =
            (exCall gen asm ev th v (s + 1)).feedback := rfl
        have hpo : some (gen s (exCall gen asm ev th v s)).1 =
            (exCall gen asm ev th v (s + 1)).previous_opener := rfl
        rw [hfb, hpo, ih (s + 1) _ _ hm (by omega)]
        simp only [List.map_cons]
        have e1 : ∀ (l : List Attempt) (x : Attempt) (r : List Attempt),
            (l ++ [x]) ++ r = l ++ x :: r := by
          intro l x r
          rw [List.append_assoc]
          rfl
        have e2 : ∀ (l : List OpenerCall) (x : OpenerCall) (r : List OpenerCall),
            (l ++ [x]) ++ r = l ++ x :: r := by
          intro l x r
          rw [List.append_assoc]
          rfl
        rw [e1, e2]
      · have hsm : s = mr := by omega
        have hm0 : m = 0 := by omega
        subst hm0
        rw [if_neg hs]
        simp only [List.map_cons, List.range'_zero, List.map_nil]
        cases hLA : ledger ++ [exAttempt gen asm ev th v s] with
        | nil => exact absurd hLA (by simp)
        | cons b bs =>
            rw [bestOut]

lemma pyMaxBy_le {α : Type} (key : α → Int) :
    ∀ (xs : List α) (best : α), ∀ a ∈ best :: xs, key a ≤ key (pyMaxBy key best xs) := by
  intro xs
  induction xs with
  | nil =>
      intro best a ha
      rw [List.mem_singleton] at ha
      rw [ha, pyMaxBy]
  | cons x xs ih =>
      intro best a ha
      have hstep : pyMaxBy key best (x :: xs) =
          pyMaxBy key (if key best < key x then x else best) xs := by
        rw [pyMaxBy]
      have hb2 : ∀ b : α, key b ≤ key (if key best < key x then x else best) →
          key b ≤ key (pyMaxBy key best (x :: xs)) := by
        intro b hb
        rw [hstep]
        exact le_trans hb (ih _ _ (List.mem_cons_self _ _))
      rcases List.mem_cons.mp ha with h | h
      · apply hb2
        rw [h]
        by_cases hlt : key best < key x
        · rw [if_pos hlt]
          exact le_of_lt hlt
        · rw [if_neg hlt]
      · rcases List.mem_cons.mp h with h2 | h2
        · apply hb2
          rw [h2]
          by_cases hlt : key best < key x
          · rw [if_pos hlt]
          · rw [if_neg hlt]
            exact le_of_not_lt hlt
        · rw [hstep]
          exact ih _ a (List.mem_cons_of_mem _ h2)

lemma pyMaxBy_split {α : Type} (key : α → Int) :
    ∀ (xs : List α) (best : α),
      ∃ l1 l2, best :: xs = l1 ++ pyMaxBy key best xs :: l2
        ∧ ∀ a ∈ l1, key a < key (pyMaxBy key best xs) := by
  intro xs
  induction xs with
  | nil =>
      intro best
      refine ⟨[], [], ?_, ?_⟩
      · rw [pyMaxBy]
        rfl
      · intro a ha
        exact absurd ha (List.not_mem_nil a)
  | cons x xs ih =>
      intro best
      have hstep : pyMaxBy key best (x :: xs) =
          pyMaxBy key (if key best < key x then x else best) xs := by
        rw [pyMaxBy]
      by_cases hlt : key best < key x
      · obtain ⟨l1, l2, heq, hbound⟩ := ih x
        have hr : pyMaxBy key best (x :: xs) = pyMaxBy key x xs := by
          rw [hstep, if_pos hlt]
        refine ⟨best :: l1, l2, ?_, ?_⟩
        · rw [hr, List.cons_append, ← heq]
        · intro a ha
          rw [hr]
          rcases List.mem_cons.mp ha with h | h
          · rw [h]
            exact lt_of_lt_of_le hlt (pyMaxBy_le key xs x x (List.mem_cons_self _ _))
          · exact hbound a h
      · obtain ⟨l1, l2, heq, hbound⟩ := ih best
        have hr : pyMaxBy key best (x :: xs) = pyMaxBy key best xs := by
          rw [hstep, if_neg hlt]
        cases l1 with
        | nil =>
            rw [List.nil_append] at heq
            have hbest : best = pyMaxBy key best xs := by
              injection heq with h1 h2
            refine ⟨[], x :: xs, ?_, ?_⟩
            · rw [hr, ← hbest]
              rfl
            · intro a ha
              exact absurd ha (List.not_mem_nil a)
        | cons b l1t =>
            rw [List.cons_append] at heq
            injection heq with hb hxs
            refine ⟨best :: x :: l1t, l2, ?_, ?_⟩
            · rw [hr]
              show best :: x :: xs = best :: x :: (l1t ++ pyMaxBy key best xs :: l2)
              rw [← hxs]
            · have hbestlt : key best < key (pyMaxBy key best xs) := by
                apply hbound
                rw [← hb]
                exact List.mem_cons_self best l1t
              intro a ha
              rw [hr]
              rcases List.mem_cons.mp ha with h | h
              · rw [h]
                exact hbestlt
              · rcases List.mem_cons.mp h with h2 | h2
                · rw [h2]
                  exact lt_of_le_of_lt (le_of_not_lt hlt) hbestlt
                · exact hbound a (List.mem_cons_of_mem _ h2)

lemma exAttempt_get (gen : Nat → OpenerCall → String × Option String)
    (asm : String → String × String)
    (ev : Nat → String → String → EvaluationResult)
    (th : Int) (v : String) (n k : Nat)
    (hk : k < ((List.range' 0 n).map (exAttempt gen asm ev th v)).length) :
    ((List.range' 0 n).map (exAttempt gen asm ev th v)).get ⟨k, hk⟩ =
      exAttempt gen asm ev th v k := by
  rw [List.get_eq_getElem, List.getElem_map, List.getElem_range'_1, Nat.zero_add]

lemma exCall_get (gen : Nat → OpenerCall → String × Option String)
    (asm : String → String × String)
    (ev : Nat → String → String → EvaluationResult)
    (th : Int) (v : String) (n k : Nat)
    (hk : k < ((List.range' 0 n).map (exCall gen asm ev th v)).length) :
    ((List.range' 0 n).map (exCall gen asm ev th v)).get ⟨k, hk⟩ =
      exCall gen asm ev th v k := by
  rw [List.get_eq_getElem, List.getElem_map, List.getElem_range'_1, Nat.zero_add]

lemma split_number_mono (L l1 l2 : List Attempt) (b : Attempt)
    (hL : L = l1 ++ b :: l2)
    (hnum : ∀ k, ∀ hk : k < L.length, (L.get ⟨k, hk⟩).attempt_number = k + 1) :
    (∀ a ∈ l1, a.attempt_number < b.attempt_number) ∧
    (∀ a ∈ l2, b.attempt_number < a.attempt_number) := by
  have hpair : L.Pairwise (fun a b => a.attempt_number < b.attempt_number) := by
    rw [List.pairwise_iff_get]
    intro i j hij
    rw [hnum i.1 i.2, hnum j.1 j.2]
    omega
  rw [hL, List.pairwise_append] at hpair
  obtain ⟨_, hcons, hcross⟩ := hpair
  rw [List.pairwise_cons] at hcons
  constructor
  · intro a ha
    exact hcross a ha b (List.mem_cons_self _ _)
  · intro a ha
    exact hcons.1 a ha

lemma generate_email_run_exhausted_eq
    (gen : Nat → OpenerCall → String × Option String)
    (asm : String → String × String)
    (ev : Nat → String → String → EvaluationResult)
    (mr : Nat) (th : Int) (ctx : ScrapedContext) (v fo : String)
    (hgen : ∀ i c, (gen i c).1 ≠ "" ∧ (gen i c).2 = none)
    (hev : ∀ i b s, (ev i b s).is_acceptable = false)
    (hq : ctx.quality = ContextQuality.GOOD)
    (hu : ctx.has_usable_content = true) :
    ∃ hd tl, (List.range' 0 (mr + 1)).map (exAttempt gen asm ev th v) = hd :: tl
      ∧ generate_email_run gen asm ev true mr th ctx v fo =
        ⟨⟨(pyMaxBy (fun x => x.score) hd tl).subject,
          (pyMaxBy (fun x => x.score) hd tl).body,
          (pyMaxBy (fun x => x.score) hd tl).opener, true, some v,
          some (pyMaxBy (fun x => x.score) hd tl).evaluation⟩,
         (List.range' 0 (mr + 1)).map (exCall gen asm ev th v), hd :: tl⟩ := by
  have hcf := genLoop_closed_form gen asm ev mr th v hgen hev (mr + 1) 0 [] []
    (by omega) (by omega)
  have hcf2 : genLoop gen asm ev true mr th v (List.range' 0 (mr + 1)) none none [] [] =
      (bestOut ((List.range' 0 (mr + 1)).map (exAttempt gen asm ev th v)),
       (List.range' 0 (mr + 1)).map (exCall gen asm ev th v),
       (List.range' 0 (mr + 1)).map (exAttempt gen asm ev th v)) := by
    have h1 : ([] : List Attempt) ++ (List.range' 0 (mr + 1)).map (exAttempt gen asm ev th v) =
        (List.range' 0 (mr + 1)).map (exAttempt gen asm ev th v) := List.nil_append _
    have h2 : ([] : List OpenerCall) ++ (List.range' 0 (mr + 1)).map (exCall gen asm ev th v) =
        (List.range' 0 (mr + 1)).map (exCall gen asm ev th v) := List.nil_append _
    rw [h1, h2] at hcf
    exact hcf
  have hLlen : ((List.range' 0 (mr + 1)).map (exAttempt gen asm ev th v)).length = mr + 1 := by
    rw [List.length_map, List.length_range']
  obtain ⟨hd, tl, hLht⟩ : ∃ hd tl,
      (List.range' 0 (mr + 1)).map (exAttempt gen asm ev th v) = hd :: tl := by
    cases hL2 : (List.range' 0 (mr + 1)).map (exAttempt gen asm ev th v) with
    | nil =>
        rw [hL2] at hLlen
        exact absurd hLlen (by simp)
    | cons a t => exact ⟨a, t, rfl⟩
  refine ⟨hd, tl, hLht, ?_⟩
  unfold generate_email_run
  rw [if_pos ⟨hq, hu⟩, List.range_eq_range', hcf2, hLht, bestOut]

/-- C1 (amended): when every generation call of the run produces usable text
and every evaluation rejects (the pure exhaustion run), the final message is
the highest-scoring ledger attempt with used_ai_opener = true; ties go to
the earliest attempt (the ledger lists attempt k at position k-1, everything
before the selected attempt scores strictly lower, everything after scores
at most as much); the amendment: when a generation attempt fails mid-loop
the static template is used even if the ledger is non-empty, so the template
fallback is NOT confined to the empty-ledger case (see the
counterexample). -/
theorem generate_email_exhausted_best
    (gen : Nat → OpenerCall → String × Option String)
    (asm : String → String × String)
    (ev : Nat → String → String → EvaluationResult)
    (mr : Nat) (th : Int) (ctx : ScrapedContext) (v fo : String)
    (hgen : ∀ i c, (gen i c).1 ≠ "" ∧ (gen i c).2 = none)
    (hev : ∀ i b s, (ev i b s).is_acceptable = false)
    (hq : ctx.quality = ContextQuality.GOOD)
    (hu : ctx.has_usable_content = true) :
    ∃ ledger calls b l1 l2,
      generate_email_run gen asm ev true mr th ctx v fo =
        ⟨⟨b.subject, b.body, b.opener, true, some v, some b.evaluation⟩, calls, ledger⟩
      ∧ ledger.length = mr + 1
      ∧ (∀ k, ∀ hk : k < ledger.length, (ledger.get ⟨k, hk⟩).attempt_number = k + 1)
      ∧ b ∈ ledger
      ∧ (∀ a ∈ ledger, a.score ≤ b.score)
      ∧ ledger = l1 ++ b :: l2
      ∧ (∀ a ∈ l1, a.score < b.score)
      ∧ (∀ a ∈ l1, a.attempt_number < b.attempt_number)
      ∧ (∀ a ∈ l2, b.attempt_number < a.attempt_number) := by
  obtain ⟨hd, tl, hLht, hrun⟩ :=
    generate_email_run_exhausted_eq gen asm ev mr th ctx v fo hgen hev hq hu
  have hLlen : ((List.range' 0 (mr + 1)).map (exAttempt gen asm ev th v)).length = mr + 1 := by
    rw [List.length_map, List.length_range']
  obtain ⟨l1, l2, hsplit0, hlt⟩ := pyMaxBy_split (fun x : Attempt => x.score) tl hd
  have hle0 := pyMaxBy_le (fun x : Attempt => x.score) tl hd
  have hsplit : (List.range' 0 (mr + 1)).map (exAttempt gen asm ev th v) =
      l1 ++ pyMaxBy (fun x : Attempt => x.score) hd tl :: l2 := hLht.trans hsplit0
  have hle : ∀ a ∈ (List.range' 0 (mr + 1)).map (exAttempt gen asm ev th v),
      a.score ≤ (pyMaxBy (fun x : Attempt => x.score) hd tl).score := by
    rw [hLht]
    exact hle0
  have hnum2 : ∀ k, ∀ hk : k < ((List.range' 0 (mr + 1)).map (exAttempt gen asm ev th v)).length,
      (((List.range' 0 (mr + 1)).map (exAttempt gen asm ev th v)).get ⟨k, hk⟩).attempt_number =
        k + 1 := by
    intro k hk
    rw [exAttempt_get gen asm ev th v (mr + 1) k hk]
    rfl
  have hmono := split_number_mono ((List.range' 0 (mr + 1)).map (exAttempt gen asm ev th v))
    l1 l2 (pyMaxBy (fun x : Attempt => x.score) hd tl) hsplit hnum2
  have hrun2 : generate_email_run gen asm ev true mr th ctx v fo =
      ⟨⟨(pyMaxBy (fun x => x.score) hd tl).subject,
        (pyMaxBy (fun x => x.score) hd tl).body,
        (pyMaxBy (fun x => x.score) hd tl).opener, true, some v,
        some (pyMaxBy (fun x => x.score) hd tl).evaluation⟩,
       (List.range' 0 (mr + 1)).map (exCall gen asm ev th v),
       (List.range' 0 (mr + 1)).map (exAttempt gen asm ev th v)⟩ := by
    rw [hrun, hLht]
  refine ⟨(List.range' 0 (mr + 1)).map (exAttempt gen asm ev th v),
    (List.range' 0 (mr + 1)).map (exCall gen asm ev th v),
    pyMaxBy (fun x : Attempt => x.score) hd tl, l1, l2, hrun2, hLlen, hnum2, ?_, hle, hsplit,
    hlt, hmono.1, hmono.2⟩
  rw [hsplit]
  exact List.mem_append_right l1 (List.mem_cons_self _ _)

/-- C1 witness: the spec's own scenario — three attempts scoring 40, 55, 60
with max_retries = 2 and threshold 70 — runs to exhaustion with a
three-entry ledger and the selected attempt carries evaluation score 60
(attempt 3, the unique maximum). -/
theorem generate_email_exhausted_best_witness :
    (generate_email_run gen_ok asm0 ev_reject true 2 70 good_ctx
        "direct_reference" "fallback opener").ledger.length = 2 + 1
    ∧ (generate_email_run gen_ok asm0 ev_reject true 2 70 good_ctx
        "direct_reference" "fallback opener").email.used_ai_opener = true
    ∧ (generate_email_run gen_ok asm0 ev_reject true 2 70 good_ctx
        "direct_reference" "fallback opener").email.evaluation =
        some ⟨false, 60, [], [], [], []⟩ := by
  have hne : ("an opener" : String) ≠ "" := by decide
  have hgen : ∀ i c, (gen_ok i c).1 ≠ "" ∧ (gen_ok i c).2 = none := fun i c => ⟨hne, rfl⟩
  have hev : ∀ i b s, (ev_reject i b s).is_acceptable = false := fun i b s => rfl
  obtain ⟨ledger, calls, b, l1, l2, hrun, hlen, hnum, hmem, hle, hsplit, hlt, hm1, hm2⟩ :=
    generate_email_exhausted_best gen_ok asm0 ev_reject 2 70 good_ctx
      "direct_reference" "fallback opener" hgen hev rfl (by decide)
  refine ⟨?_, ?_, by decide⟩
  · have h1 : (generate_email_run gen_ok asm0 ev_reject true 2 70 good_ctx
        "direct_reference" "fallback opener").ledger = ledger := by
      rw [hrun]
    rw [h1]
    exact hlen
  · have h2 : (generate_email_run gen_ok asm0 ev_reject true 2 70 good_ctx
        "direct_reference" "fallback opener").email.used_ai_opener = true := by
      rw [hrun]
    exact h2

/-- C6 (amended): the retry loop never rotates the prompt variant — every
call, including retries, passes the `prompt_variation` argument
`generate_email` received (the not-yet-tried-variant selection described by
the spec does not exist in the code; `get_all_variation_keys` is imported
but unused there) — while the rejected text and its feedback ARE carried
forward: on the exhaustion run, call k+1 carries exactly the feedback text
of ledger attempt k and that attempt's opener, and the first call carries
neither. -/
theorem generate_email_retry_same_variant
    (gen : Nat → OpenerCall → String × Option String)
    (asm : String → String × String)
    (ev : Nat → String → String → EvaluationResult)
    (mr : Nat) (th : Int) (ctx : ScrapedContext) (v fo : String)
    (hgen : ∀ i c, (gen i c).1 ≠ "" ∧ (gen i c).2 = none)
    (hev : ∀ i b s, (ev i b s).is_acceptable = false)
    (hq : ctx.quality = ContextQuality.GOOD)
    (hu : ctx.has_usable_content = true) :
    ∃ em calls ledger,
      generate_email_run gen asm ev true mr th ctx v fo = ⟨em, calls, ledger⟩
      ∧ calls.length = mr + 1
      ∧ (∀ c ∈ calls, c.variation = v)
      ∧ (∀ h0 : 0 < calls.length,
          (calls.get ⟨0, h0⟩).feedback = none
          ∧ (calls.get ⟨0, h0⟩).previous_opener = none)
      ∧ (∀ k, ∀ hk1 : k + 1 < calls.length, ∀ hk2 : k < ledger.length,
          (calls.get ⟨k + 1, hk1⟩).feedback =
            some ((ledger.get ⟨k, hk2⟩).evaluation.get_feedback_text th)
          ∧ (calls.get ⟨k + 1, hk1⟩).previous_opener =
            some ((ledger.get ⟨k, hk2⟩).opener)) := by
  obtain ⟨hd, tl, hLht, hrun⟩ :=
    generate_email_run_exhausted_eq gen asm ev mr th ctx v fo hgen hev hq hu
  refine ⟨⟨(pyMaxBy (fun x => x.score) hd tl).subject,
      (pyMaxBy (fun x => x.score) hd tl).body,
      (pyMaxBy (fun x => x.score) hd tl).opener, true, some v,
      some (pyMaxBy (fun x => x.score) hd tl).evaluation⟩,
    (List.range' 0 (mr + 1)).map (exCall gen asm ev th v),
    (List.range' 0 (mr + 1)).map (exAttempt gen asm ev th v), ?_, ?_, ?_, ?_, ?_⟩
  · rw [hrun, hLht]
  · rw [List.length_map, List.length_range']
  · intro c hc
    obtain ⟨i, _, rfl⟩ := List.mem_map.mp hc
    exact exCall_variation gen asm ev th v i
  · intro h0
    rw [exCall_get gen asm ev th v (mr + 1) 0 h0]
    exact ⟨rfl, rfl⟩
  · intro k hk1 hk2
    rw [exCall_get gen asm ev th v (mr + 1) (k + 1) hk1,
        exAttempt_get gen asm ev th v (mr + 1) k hk2]
    exact ⟨rfl, rfl⟩

/-- C6 witness: the amended retry dataflow at a concrete exhaustion run with
max_retries = 1 — two calls, both with the variant "direct_reference". -/
theorem generate_email_retry_same_variant_witness :
    (generate_email_run gen_ok asm0 ev_reject true 1 70 good_ctx
        "direct_reference" "fallback opener").calls.length = 1 + 1
    ∧ (∀ c ∈ (generate_email_run gen_ok asm0 ev_reject true 1 70 good_ctx
        "direct_reference" "fallback opener").calls, c.variation = "direct_reference") := by
  have hne : ("an opener" : String) ≠ "" := by decide
  have hgen : ∀ i c, (gen_ok i c).1 ≠ "" ∧ (gen_ok i c).2 = none := fun i c => ⟨hne, rfl⟩
  have hev : ∀ i b s, (ev_reject i b s).is_acceptable = false := fun i b s => rfl
  obtain ⟨em, calls, ledger, heq, hlen, hvar, hfirst, hlink⟩ :=
    generate_email_retry_same_variant gen_ok asm0 ev_reject 1 70 good_ctx
      "direct_reference" "fallback opener" hgen hev rfl (by decide)
  have hc : (generate_email_run gen_ok asm0 ev_reject true 1 70 good_ctx
      "direct_reference" "fallback opener").calls = calls := by
    rw [heq]
  rw [hc]
  exact ⟨hlen, hvar⟩

/-- What the `try` block of `Fetcher.fetch` observes on one attempt
(fetcher.py lines 79-114): a response whose `raise_for_status` did not raise
(with its content-type header and text), a timeout, an HTTP status error
carrying the status code, or a generic transport (`RequestError`) failure.
The transport is opaque, so the per-attempt outcome is an oracle. -/
inductive AttemptOutcome
  | success (content_type : String) (text : String)
  | timeout
  | statusError (code : Nat)
  | requestError (message : String)
deriving DecidableEq

/-- Infix (contiguous sublist) test on character lists. -/
def infixAt (needle : List Char) : List Char → Bool
  | [] => needle == []
  | c :: rest => needle.isPrefixOf (c :: rest) || infixAt needle rest

/-- Python substring test `needle in haystack`. -/
def pyIn (needle haystack : String) : Bool := infixAt needle.toList haystack.toList

/-- The outcome of `Fetcher.fetch`: the tagged (content, error) pair, plus —
for verification — the backoff sleeps executed (in seconds, in order) and the
number of attempts made. -/
structure FetchResult where
  content : Option String
  error : Option String
  sleeps : List Nat
  attempts_made : Nat
deriving DecidableEq

/-- The `for attempt in range(max_retries)` loop of `Fetcher.fetch`
(fetcher.py lines 78-116), entered at `attempt`, with the sleeps executed so
far accumulated in `sleeps`:
- 2xx response: non-retryable failure when the content-type contains neither
  "text/html" nor "text/plain", else success;
- timeout: terminal message on the last attempt, else sleep `2 ** attempt`
  and retry;
- status 404: immediate failure; status 429/503: terminal message on the
  last attempt, else sleep `5 * (attempt + 1)` and retry; any other status:
  immediate failure;
- transport error: terminal message on the last attempt, else sleep
  `2 ** attempt` and retry;
falling off the loop end yields "Max retries exceeded". -/
def fetchLoop (oracle : Nat → AttemptOutcome) (max_retries : Nat)
    (attempt : Nat) (sleeps : List Nat) : FetchResult :=
  if attempt < max_retries then
    match oracle attempt with
    | .success ct text =>
        if (!pyIn "text/html" ct) && (!pyIn "text/plain" ct) then
          ⟨none, some ("Non-HTML content type: " ++ ct), sleeps, attempt + 1⟩
        else
          ⟨some text, none, sleeps, attempt + 1⟩
    | .timeout =>
        if attempt = max_retries - 1 then
          ⟨none, some ("Timeout after " ++ toString max_retries ++ " attempts"),
           sleeps, attempt + 1⟩
        else
          fetchLoop oracle max_retries (attempt + 1) (sleeps ++ [2 ^ attempt])
    | .statusError code =>
        if code = 404 then
          ⟨none, some "Page not found (404)", sleeps, attempt + 1⟩
        else if code = 429 ∨ code = 503 then
          if attempt = max_retries - 1 then
            ⟨none, some ("HTTP " ++ toString code ++ " after " ++ toString max_retries ++
              " attempts"), sleeps, attempt + 1⟩
          else
            fetchLoop oracle max_retries (attempt + 1) (sleeps ++ [5 * (attempt + 1)])
        else
          ⟨none, some ("HTTP error: " ++ toString code), sleeps, attempt + 1⟩
    | .requestError msg =>
        if attempt = max_retries - 1 then
          ⟨none, some ("Request error: " ++ msg), sleeps, attempt + 1⟩
        else
          fetchLoop oracle max_retries (attempt + 1) (sleeps ++ [2 ^ attempt])
  else
    ⟨none, some "Max retries exceeded", sleeps, attempt⟩
termination_by max_retries - attempt
decreasing_by all_goals omega

/-- `Fetcher.fetch(url, max_retries)` (fetcher.py lines 60-116), with the
per-attempt transport outcome as an oracle. -/
def fetch (oracle : Nat → AttemptOutcome) (max_retries : Nat) : FetchResult :=
  fetchLoop oracle max_retries 0 []

/-- An outcome the loop retries past (when attempts remain): timeout,
transport error, or HTTP 429/503. -/
def isTransient : AttemptOutcome → Bool
  | .timeout => true
  | .requestError _ => true
  | .statusError code => code == 429 || code == 503
  | .success _ _ => false

/-- The backoff the loop sleeps after a transient outcome at `attempt`:
linear `5 * (attempt + 1)` for a status error (429/503), exponential
`2 ^ attempt` otherwise. -/
def backoff (attempt : Nat) : AttemptOutcome → Nat
  | .statusError _ => 5 * (attempt + 1)
  | _ => 2 ^ attempt

/-- The sleeps executed while retrying past the first `k` attempts. -/
def backoff_trace (oracle : Nat → AttemptOutcome) (k : Nat) : List Nat :=
  (List.range k).map (fun j => backoff j (oracle j))

/-- The result `fetch` reports when the loop terminates at `attempt` on the
given outcome (the terminal arms of fetchLoop). -/
def terminal_result (max_retries attempt : Nat) (sleeps : List Nat) :
    AttemptOutcome → FetchResult
  | .success ct text =>
      if (!pyIn "text/html" ct) && (!pyIn "text/plain" ct) then
        ⟨none, some ("Non-HTML content type: " ++ ct), sleeps, attempt + 1⟩
      else
        ⟨some text, none, sleeps, attempt + 1⟩
  | .timeout =>
      ⟨none, some ("Timeout after " ++ toString max_retries ++ " attempts"),
       sleeps, attempt + 1⟩
  | .statusError code =>
      if code = 404 then
        ⟨none, some "Page not found (404)", sleeps, attempt + 1⟩
      else if code = 429 ∨ code = 503 then
        ⟨none, some ("HTTP " ++ toString code ++ " after " ++ toString max_retries ++
          " attempts"), sleeps, attempt + 1⟩
      else
        ⟨none, some ("HTTP error: " ++ toString code), sleeps, attempt + 1⟩
  | .requestError msg =>
      ⟨none, some ("Request error: " ++ msg), sleeps, attempt + 1⟩

lemma fetchLoop_step (oracle : Nat → AttemptOutcome) (N s : Nat) (sleeps : List Nat)
    (hs : s < N) (htrans : isTransient (oracle s) = true) (hlast : s ≠ N - 1) :
    fetchLoop oracle N s sleeps =
      fetchLoop oracle N (s + 1) (sleeps ++ [backoff s (oracle s)]) := by
  rw [fetchLoop]
  rw [if_pos hs]
  cases ho : oracle s with
  | success ct text =>
      rw [ho] at htrans
      exact absurd htrans (by simp [isTransient])
  | timeout =>
      simp only [if_neg hlast]
      rfl
  | statusError code =>
      rw [ho] at htrans
      have hcode : code = 429 ∨ code = 503 := by
        simp only [isTransient, Bool.or_eq_true, beq_iff_eq] at htrans
        exact htrans
      have h404 : code ≠ 404 := by omega
      simp only [if_neg h404, if_pos hcode, if_neg hlast]
      rfl
  | requestError msg =>
      simp only [if_neg hlast]
      rfl

lemma fetchLoop_terminal (oracle : Nat → AttemptOutcome) (N s : Nat) (sleeps : List Nat)
    (hs : s < N) (hstop : isTransient (oracle s) = false ∨ s = N - 1) :
    fetchLoop oracle N s sleeps = terminal_result N s sleeps (oracle s) := by
  rw [fetchLoop]
  rw [if_pos hs]
  cases ho : oracle s with
  | success ct text =>
      simp only [terminal_result]
  | timeout =>
      have hlast : s = N - 1 := by
        rcases hstop with h | h
        · rw [ho] at h
          exact absurd h (by simp [isTransient])
        · exact h
      simp only [terminal_result, if_pos hlast]
  | statusError code =>
      by_cases h404 : code = 404
      · simp only [terminal_result, if_pos h404]
      · by_cases hrl : code = 429 ∨ code = 503
        · have hlast : s = N - 1 := by
            rcases hstop with h | h
            · rw [ho] at h
              have h2 : ¬ (code = 429 ∨ code = 503) := by
                intro hc
                rcases hc with hc | hc <;> subst hc <;> simp [isTransient] at h
              exact absurd hrl h2
            · exact h
          simp only [terminal_result, if_neg h404, if_pos hrl, if_pos hlast]
        · simp only [terminal_result, if_neg h404, if_neg hrl]
  | requestError msg =>
      have hlast : s = N - 1 := by
        rcases hstop with h | h
        · rw [ho] at h
          exact absurd h (by simp [isTransient])
        · exact h
      simp only [terminal_result, if_pos hlast]

lemma fetchLoop_advance (oracle : Nat → AttemptOutcome) (N : Nat) :
    ∀ k, k < N → (∀ j, j < k → isTransient (oracle j) = true) →
      fetchLoop oracle N 0 [] = fetchLoop oracle N k (backoff_trace oracle k) := by
  intro k
  induction k with
  | zero =>
      intro _ _
      rfl
  | succ m ih =>
      intro hm hpre
      have h1 : fetchLoop oracle N 0 [] = fetchLoop oracle N m (backoff_trace oracle m) :=
        ih (by omega) (fun j hj => hpre j (by omega))
      rw [h1]
      have h2 := fetchLoop_step oracle N m (backoff_trace oracle m) (by omega)
        (hpre m (by omega)) (by omega)
      rw [h2]
      have h3 : backoff_trace oracle m ++ [backoff m (oracle m)] =
          backoff_trace oracle (m + 1) := by
        unfold backoff_trace
        rw [List.range_succ, List.map_append]
        rfl
      rw [h3]

lemma fetchLoop_tagged (oracle : Nat → AttemptOutcome) (N : Nat) :
    ∀ fuel s sleeps, N - s ≤ fuel →
      ((fetchLoop oracle N s sleeps).content.isSome = true ↔
        (fetchLoop oracle N s sleeps).error = none) := by
  intro fuel
  induction fuel with
  | zero =>
      intro s sleeps hfuel
      rw [fetchLoop, if_neg (by omega)]
      simp
  | succ f ih =>
      intro s sleeps hfuel
      by_cases hs : s < N
      · rw [fetchLoop, if_pos hs]
        cases oracle s with
        | success ct text =>
            by_cases hct : ((!pyIn "text/html" ct) && (!pyIn "text/plain" ct)) = true
            · simp only [if_pos hct]
              simp
            · simp only [if_neg hct]
              simp
        | timeout =>
            by_cases hlast : s = N - 1
            · simp only [if_pos hlast]
              simp
            · simp only [if_neg hlast]
              exact ih (s + 1) _ (by omega)
        | statusError code =>
            by_cases h404 : code = 404
            · simp only [if_pos h404]
              simp
            · by_cases hrl : code = 429 ∨ code = 503
              · by_cases hlast : s = N - 1
                · simp only [if_neg h404, if_pos hrl, if_pos hlast]
                  simp
                · simp only [if_neg h404, if_pos hrl, if_neg hlast]
                  exact ih (s + 1) _ (by omega)
              · simp only [if_neg h404, if_neg hrl]
                simp
        | requestError msg =>
            by_cases hlast : s = N - 1
            · simp only [if_pos hlast]
              simp
            · simp only [if_neg hlast]
              exact ih (s + 1) _ (by omega)
      · rw [fetchLoop, if_neg hs]
        simp

/-- C7: `fetch` returns a tagged pair with exactly one side populated, and
classifies outcomes as the claim states: after any run of transient
outcomes (timeouts and transport errors, retried with exponential backoff
`2 ^ attempt`; HTTP 429/503, retried with linear backoff `5 * (attempt+1)`),
the loop terminates at the first non-transient outcome — 404 and every
other non-retryable status and a 2xx response with a non-textual
content-type fail immediately, a textual 2xx succeeds — or at the last of
the `max_retries` attempt slots, having slept exactly the per-attempt
backoffs of the retried prefix. -/
theorem fetch_classification (oracle : Nat → AttemptOutcome) (N k : Nat)
    (_hN : 1 ≤ N) (hk : k < N)
    (hpre : ∀ j, j < k → isTransient (oracle j) = true)
    (hstop : isTransient (oracle k) = false ∨ k = N - 1) :
    fetch oracle N = terminal_result N k (backoff_trace oracle k) (oracle k)
    ∧ (∀ (g : Nat → AttemptOutcome) (M : Nat),
        ((fetch g M).content.isSome = true ↔ (fetch g M).error = none)) := by
  constructor
  · rw [fetch, fetchLoop_advance oracle N k hk hpre]
    exact fetchLoop_terminal oracle N k (backoff_trace oracle k) hk hstop
  · intro g M
    exact fetchLoop_tagged g M (M + 1) 0 [] (by omega)

/-- The oracle behind the C7 witness: two timeouts, then a 404. -/
def fetch_oracle_cex : Nat → AttemptOutcome :=
  fun j => if j < 2 then AttemptOutcome.timeout else AttemptOutcome.statusError 404

/-- C7 witness: with max_retries = 5 and attempts timing out twice before a
404, the fetch sleeps 1 and 2 seconds (exponential backoff), then fails
immediately on the 404 with the tagged error and no further attempts. -/
theorem fetch_classification_witness :
    fetch fetch_oracle_cex 5 = ⟨none, some "Page not found (404)", [1, 2], 3⟩ := by
  have hpre : ∀ j, j < 2 → isTransient (fetch_oracle_cex j) = true := by
    intro j hj
    unfold fetch_oracle_cex
    rw [if_pos hj]
    rfl
  have h := (fetch_classification fetch_oracle_cex 5 2 (by omega) (by omega) hpre
    (Or.inl (by rfl))).1
  rw [h]
  rfl

/-- Result of one `_run_async` invocation, restricted to its resume/progress
behavior (cli.py lines 105-270). -/
structure RunOutcome where
  already_complete : Bool
  start_index : Nat
  generation_calls : Nat
  final_progress : Option (Nat × Nat)
deriving DecidableEq

/-- Resume/progress logic of `cli._run_async` (cli.py lines 105-270),
abstracted over the per-contact work: `progress0` is the stored progress row
for this file's fingerprint (last_processed_index, total_rows) and
`numContacts` the loaded contact count.  With resume on and a stored row,
processing starts at `last + 1`; when that start reaches the contact count
the function prints "All contacts already processed!" and returns BEFORE the
loop — and before `clear_progress` (line 270), so the row survives.
Otherwise the loop calls `generator.generate_email` once per remaining
contact, checkpointing progress after each, and `clear_progress` runs after
the loop, deleting the row. -/
def run_async (resume : Bool) (progress0 : Option (Nat × Nat)) (numContacts : Nat) :
    RunOutcome :=
  if numContacts = 0 then ⟨false, 0, 0, progress0⟩
  else
    match resume, progress0 with
    | true, some (last, _total) =>
        if numContacts ≤ last + 1 then ⟨true, last + 1, 0, some (last, _total)⟩
        else ⟨false, last + 1, numContacts - (last + 1), none⟩
    | _, _ => ⟨false, 0, numContacts, none⟩

/-- C9 counterexample: a clean full run over a 1-row file clears its
progress record, so the resume-enabled re-run starts again from index 0,
performs one generation call (not zero) and does not report
already-complete — refuting the claimed idempotence. -/
theorem rerun_idempotence_cex :
    (run_async true none 1).final_progress = none
    ∧ (run_async true (run_async true none 1).final_progress 1).already_complete = false
    ∧ (run_async true (run_async true none 1).final_progress 1).generation_calls = 1
    ∧ ¬ (run_async true (run_async true none 1).final_progress 1).generation_calls = 0 := by
  decide

/-- C9 (amended): the already-complete early return (zero generation calls,
progress row left in place) happens exactly when resume is on and a
surviving progress row satisfies last_index + 1 >= contact count — e.g.
after a run interrupted between its final checkpoint and clear_progress;
a run that enters the processing loop starts at last_index + 1 (0 without a
usable row or with resume off), performs one generation call per remaining
contact, and clears the progress row on completion.  After a cleanly
completed run the row is gone, so a resume-enabled re-run reprocesses from
index 0 rather than reporting already-complete. -/
theorem run_async_resume (last total n : Nat) (p : Option (Nat × Nat))
    (hn : 0 < n) :
    (n ≤ last + 1 →
      run_async true (some (last, total)) n = ⟨true, last + 1, 0, some (last, total)⟩)
    ∧ (last + 1 < n →
      run_async true (some (last, total)) n = ⟨false, last + 1, n - (last + 1), none⟩)
    ∧ run_async true none n = ⟨false, 0, n, none⟩
    ∧ run_async false p n = ⟨false, 0, n, none⟩ := by
  have hn0 : n ≠ 0 := by omega
  refine ⟨?_, ?_, ?_, ?_⟩
  · intro hle
    unfold run_async
    rw [if_neg hn0]
    dsimp only
    rw [if_pos hle]
  · intro hlt
    unfold run_async
    rw [if_neg hn0]
    dsimp only
    rw [if_neg (by omega)]
  · unfold run_async
    rw [if_neg hn0]
  · unfold run_async
    rw [if_neg hn0]

/-- C9 witness: the amended resume behavior at concrete inputs — a stale row
with last_index 2 on a 3-contact file reports already-complete with zero
generation calls; a row with last_index 0 resumes at index 1; no row means a
full 3-call run that ends with no progress row. -/
theorem run_async_resume_witness :
    (run_async true (some (2, 3)) 3 = ⟨true, 3, 0, some (2, 3)⟩)
    ∧ (run_async true (some (0, 3)) 3 = ⟨false, 1, 2, none⟩)
    ∧ (run_async true none 3 = ⟨false, 0, 3, none⟩) := by
  have h := run_async_resume 2 3 3 none (by omega)
  have h2 := run_async_resume 0 3 3 none (by omega)
  exact ⟨h.1 (by omega), h2.2.1 (by omega), h.2.2.1⟩

end OutreachBot
